import Mathlib

/-!
Verification of the phase reconciler of the cluster-api-operator repository.

The development shallowly embeds the Go sources:
* `versionutil` — the semantic version parser and comparator from
  k8s.io/apimachinery/pkg/util/version, as used by `controllers/phases.go`
  (`ParseSemantic`, `compareInternal`, `LessThan`).
* `controllers` — the phase functions of `controllers/phases.go`.
* `webhook` — `validateProviderSpec` and the BootstrapProviderWebhook
  admission validators.

External collaborators (the cluster client, the clusterctl library repository
and installer, YAML decoding) are modelled as explicit inputs: a phase that in
Go performs I/O against a collaborator is embedded as a pure function of the
collaborator's already-produced result.
-/

set_option maxRecDepth 10000
set_option linter.unusedVariables false

namespace versionutil

/-- The Go regexp character class `\s` (space, tab, newline, formfeed,
carriage return), used by the leading `^\s*` of `versionMatchRE`. -/
def isSpaceGo (c : Char) : Bool :=
  c = ' ' || c = '\t' || c = '\n' || c = '\x0c' || c = '\r'

/-- The character class `[0-9]` of `versionMatchRE`. -/
def isDigitChar (c : Char) : Bool :=
  '0' ≤ c && c ≤ '9'

/-- The character class `[0-9A-Za-z-]` of `extraMatchRE` (semver pre-release
and build-metadata identifiers). -/
def isIdentChar (c : Char) : Bool :=
  isDigitChar c || ('a' ≤ c && c ≤ 'z') || ('A' ≤ c && c ≤ 'Z') || c = '-'

/-- Greedy matching of `(?:\.X+)*` for a character class: consume as many
further dot-separated groups as possible.  Fuelled; each step consumes at
least two characters, so fuel equal to the remaining length suffices. -/
def munchMore (cls : Char → Bool) : Nat → List Char → List (List Char) × List Char
  | 0, cs => ([], cs)
  | fuel + 1, cs =>
    match cs with
    | '.' :: rest =>
      match List.span cls rest with
      | ([], _) => ([], cs)
      | (g, rest2) =>
        let gr := munchMore cls fuel rest2
        (g :: gr.1, gr.2)
    | _ => ([], cs)

/-- Greedy matching of `X+(?:\.X+)*` for a character class: the maximal
leading run of dot-separated nonempty groups.  `none` when the first group is
empty (the regexp alternative fails). -/
def munchGroups (cls : Char → Bool) (cs : List Char) : Option (List (List Char) × List Char) :=
  match List.span cls cs with
  | ([], _) => none
  | (g, rest) =>
    let gr := munchMore cls rest.length rest
    some (g :: gr.1, gr.2)

/-- Numeric value of a digit group (Go `strconv.ParseUint`, base 10). -/
def digitsToNat (g : List Char) : Nat :=
  g.foldl (fun n c => n * 10 + (c.toNat - 48)) 0

/-- Go `%q` quoting of a plain string in an error message. -/
def quoteStr (s : String) : String :=
  "\"" ++ s ++ "\""

/-- A parsed version: `components`, the `semver` flag, and the pre-release
and build-metadata strings — the fields of the Go `version.Version` struct. -/
structure Version where
  components : List Nat
  semver : Bool
  preRelease : String
  buildMetadata : String
deriving Repr, DecidableEq

/-- The per-component loop of Go `parse`: reject zero-padded components
(`strings.HasPrefix(comp, "0") && comp != "0"`), then convert with
`strconv.ParseUint(comp, 10, 0)` whose only remaining failure is overflow. -/
def convertComponents (str : String) : List (List Char) → Except String (List Nat)
  | [] => Except.ok []
  | g :: gs =>
    if g.head? = some '0' ∧ 1 < g.length then
      Except.error ("illegal zero-padded version: " ++ quoteStr str)
    else
      let num := digitsToNat g
      if 2 ^ 64 ≤ num then
        Except.error ("illegal non-numeric version: " ++ quoteStr str)
      else
        match convertComponents str gs with
        | Except.error e => Except.error e
        | Except.ok rest => Except.ok (num :: rest)

/-- Join dot-separated identifier groups back into the captured string. -/
def joinGroups (gs : List (List Char)) : String :=
  String.intercalate "." (gs.map (fun g => String.mk g))

/-- Match `([0-9A-Za-z-]+(?:\.[0-9A-Za-z-]+)*)` against the whole input
(the build-metadata capture of `extraMatchRE`, anchored at `$`). -/
def buildOnly (cs : List Char) : Option String :=
  match munchGroups isIdentChar cs with
  | some (gs, []) => some (joinGroups gs)
  | _ => none

/-- Match `extraMatchRE`:
`^(?:\.|-([0-9A-Za-z-]+(?:\.[0-9A-Za-z-]+)*))?(?:\+([0-9A-Za-z-]+(?:\.[0-9A-Za-z-]+)*))?$`,
returning the pre-release and build-metadata captures. -/
def parseExtra (extra : List Char) : Option (String × String) :=
  match extra with
  | '-' :: rest =>
    match munchGroups isIdentChar rest with
    | none => none
    | some (gs, r) =>
      match r with
      | [] => some (joinGroups gs, "")
      | '+' :: rest2 =>
        match buildOnly rest2 with
        | some b => some (joinGroups gs, b)
        | none => none
      | _ => none
  | '.' :: rest =>
    match rest with
    | [] => some ("", "")
    | '+' :: rest2 =>
      match buildOnly rest2 with
      | some b => some ("", b)
      | none => none
    | _ => none
  | '+' :: rest2 =>
    match buildOnly rest2 with
    | some b => some ("", b)
    | none => none
  | _ => none

/-- Go `version.ParseSemantic`: split with
`versionMatchRE = ^\s*v?([0-9]+(?:\.[0-9]+)*)(.*)*$`, require exactly three
numeric components, reject zero padding and overflow, then parse the extra
part with `extraMatchRE` when nonempty. -/
def parseSemantic (str : String) : Except String Version :=
  let cs0 := str.data.dropWhile isSpaceGo
  let cs :=
    match cs0 with
    | 'v' :: rest => rest
    | _ => cs0
  match munchGroups isDigitChar cs with
  | none => Except.error ("could not parse " ++ quoteStr str ++ " as version")
  | some (groups, rest) =>
    if groups.length ≠ 3 then
      Except.error ("illegal version string " ++ quoteStr str)
    else
      match convertComponents str groups with
      | Except.error e => Except.error e
      | Except.ok comps =>
        if rest = [] then
          Except.ok { components := comps, semver := true, preRelease := "", buildMetadata := "" }
        else
          match parseExtra rest with
          | none =>
            Except.error ("could not parse pre-release/metadata (" ++ String.mk rest ++ ") in version " ++ quoteStr str)
          | some pb =>
            Except.ok { components := comps, semver := true, preRelease := pb.1, buildMetadata := pb.2 }

/-- Go `onlyZeros`. -/
def onlyZeros (l : List Nat) : Bool :=
  l.all (fun x => x == 0)

/-- The component loop and length rules of Go `compareInternal`: first
pairwise comparison, then the longer side wins unless its tail is all
zeros. -/
def cmpComponents : List Nat → List Nat → Int
  | [], [] => 0
  | [], o => if onlyZeros o then 0 else -1
  | v, [] => if onlyZeros v then 0 else 1
  | a :: v, b :: o =>
    if b < a then 1 else if a < b then -1 else cmpComponents v o

/-- Go `strconv.ParseUint(s, 10, 0)` on a pre-release identifier: succeeds
exactly on nonempty all-digit strings whose value fits in 64 bits. -/
def parseUintPre (g : List Char) : Option Nat :=
  if g ≠ [] ∧ g.all isDigitChar then
    let n := digitsToNat g
    if n < 2 ^ 64 then some n else none
  else none

/-- Go `strings.Compare`, bytewise; the compared strings here are ASCII
identifier segments, so charwise comparison coincides. -/
def cmpCharList : List Char → List Char → Int
  | [], [] => 0
  | [], _ :: _ => -1
  | _ :: _, [] => 1
  | c :: x, d :: y =>
    if c < d then -1 else if d < c then 1 else cmpCharList x y

/-- The pre-release identifier loop of Go `compareInternal`: numeric
comparison when both identifiers parse as unsigned integers, otherwise
string comparison; after the common length, the longer list is greater. -/
def cmpPre : List String → List String → Int
  | [], [] => 0
  | [], _ :: _ => -1
  | _ :: _, [] => 1
  | a :: v, b :: o =>
    match parseUintPre a.data, parseUintPre b.data with
    | some x, some y =>
      if y < x then 1 else if x < y then -1 else cmpPre v o
    | _, _ =>
      let s := cmpCharList a.data b.data
      if s ≠ 0 then s else cmpPre v o

/-- Go `Version.compareInternal`. -/
def Version.compareInternal (v other : Version) : Int :=
  let c := cmpComponents v.components other.components
  if c ≠ 0 then c
  else if v.semver = false ∨ other.semver = false then 0
  else if v.preRelease = "" ∧ other.preRelease ≠ "" then 1
  else if v.preRelease ≠ "" ∧ other.preRelease = "" then -1
  else if v.preRelease = other.preRelease then 0
  else cmpPre (v.preRelease.splitOn ".") (other.preRelease.splitOn ".")

/-- Go `Version.LessThan`. -/
def Version.lessThan (v other : Version) : Bool :=
  decide (v.compareInternal other < 0)

/-- Go `Version.Major`: the first component. -/
def Version.major (v : Version) : Nat :=
  v.components.headD 0

/-- Go `Version.Minor`: the second component. -/
def Version.minor (v : Version) : Nat :=
  (v.components.drop 1).headD 0

end versionutil

example : versionutil.parseSemantic "v1.2.3" =
    Except.ok { components := [1, 2, 3], semver := true, preRelease := "", buildMetadata := "" } := by
  rfl

example : versionutil.parseSemantic "1.2.3-beta.1+build.7" =
    Except.ok { components := [1, 2, 3], semver := true, preRelease := "beta.1", buildMetadata := "build.7" } := by
  rfl

example : versionutil.parseSemantic "" =
    Except.error "could not parse \"\" as version" := by rfl

example : versionutil.parseSemantic "latest" =
    Except.error "could not parse \"latest\" as version" := by rfl

example : versionutil.parseSemantic "v1.2" =
    Except.error "illegal version string \"v1.2\"" := by rfl

example : versionutil.parseSemantic "v1.02.3" =
    Except.error "illegal zero-padded version: \"v1.02.3\"" := by rfl

example : versionutil.parseSemantic "v1.2.3-" =
    Except.error "could not parse pre-release/metadata (-) in version \"v1.2.3-\"" := by rfl

example :
    (versionutil.Version.lessThan { components := [0, 9, 0], semver := true, preRelease := "", buildMetadata := "" }
      { components := [1, 0, 0], semver := true, preRelease := "", buildMetadata := "" }) = true := by
  rfl

example :
    (versionutil.Version.lessThan { components := [1, 0, 0], semver := true, preRelease := "", buildMetadata := "" }
      { components := [1, 0, 0], semver := true, preRelease := "", buildMetadata := "" }) = false := by
  rfl

example :
    (versionutil.Version.lessThan { components := [1, 0, 0], semver := true, preRelease := "alpha", buildMetadata := "" }
      { components := [1, 0, 0], semver := true, preRelease := "", buildMetadata := "" }) = true := by
  rfl

namespace controllers

/-- `metadataFile` constant of `controllers/phases.go`. -/
def metadataFile : String := "metadata.yaml"

/-- The `clusterctlv1.Provider` record read and written by the phase
reconciler (name, namespace, type, provider name, installed version). -/
structure ClusterctlProvider where
  name : String
  namespace_ : String
  type_ : String
  providerName : String
  version : String
deriving Repr, DecidableEq

/-- Outcome of `ctrlClient.Get` on the clusterctl Provider record:
`apierrors.IsNotFound` is distinguished from every other error. -/
inductive GetError where
  | notFound
  | other (msg : String)
deriving Repr, DecidableEq

/-- `updateRequiresPreDeletion` of `controllers/phases.go`.  The
`ctrlClient.Get` of the clusterctl Provider record is an external read,
passed in as its result `getResult`; `componentsVersion` is
`s.components.Version()`, the resolved version of the fetched ComponentSet.
The Go `(bool, error)` return is embedded as `Except String Bool`. -/
def updateRequiresPreDeletion
    (getResult : Except GetError ClusterctlProvider)
    (componentsVersion : String) : Except String Bool :=
  match getResult with
  | Except.error GetError.notFound => Except.ok false
  | Except.error (GetError.other e) => Except.error e
  | Except.ok p =>
    if p.version = "" then Except.ok false
    else
      match versionutil.parseSemantic componentsVersion with
      | Except.error e => Except.error e
      | Except.ok nextVersion =>
        match versionutil.parseSemantic p.version with
        | Except.error e => Except.error e
        | Except.ok currentVersion => Except.ok (currentVersion.lessThan nextVersion)

/-- `repository.ComponentsOptions` as filled in by `load`. -/
structure ComponentsOptions where
  targetNamespace : String
  skipTemplateProcess : Bool
  version : String
deriving Repr, DecidableEq

/-- The options-construction step of `load` in `controllers/phases.go`:
`p.options` is built with `Version: p.repo.DefaultVersion()`, then
overwritten with `*spec.Version` when `spec.Version != nil`. -/
def loadOptions (providerNamespace : String) (specVersion : Option String)
    (repoDefaultVersion : String) : ComponentsOptions :=
  let options : ComponentsOptions :=
    { targetNamespace := providerNamespace
      skipTemplateProcess := false
      version := repoDefaultVersion }
  match specVersion with
  | some v => { options with version := v }
  | none => options

/-- A `corev1.ConfigMap` as read by `configmapRepository`: namespace, name,
labels (`nil` map distinguished from an empty one) and data. -/
structure ConfigMap where
  namespace_ : String
  name : String
  labels : Option (List (String × String))
  data : List (String × String)
deriving Repr, DecidableEq

/-- Go map lookup on a string-keyed association list. -/
def lookupStr (m : List (String × String)) (k : String) : Option String :=
  (m.find? (fun p => p.1 == k)).map (fun p => p.2)

/-- Modelled from the spec: the constant `operatorv1.ConfigMapVersionLabelName`
is declared in the api package, which is not among the sources; the spec names
the version label `cluster.x-k8s.io/version`. -/
def configMapVersionLabelName : String := "cluster.x-k8s.io/version"

/-- The clusterctl `repository.MemoryRepository` collaborator backing
`configmapRepository` (the spec's InMemoryRepository): paths, a default
version fixed by the first added file, and the stored files. -/
structure MemoryRepository where
  rootPath : String := ""
  componentsPath : String := ""
  defaultVersion : String := ""
  versions : List String := []
  files : List ((String × String) × String) := []
deriving Repr, DecidableEq

/-- `MemoryRepository.WithPaths`: the components path is
`filepath.Join(rootPath, componentsPath)`. -/
def MemoryRepository.withPaths (r : MemoryRepository) (root path : String) : MemoryRepository :=
  { r with rootPath := root, componentsPath := if root = "" then path else root ++ "/" ++ path }

/-- `MemoryRepository.WithFile`: record the version and the file, and fix the
default version on the first file whose version is not the "latest" tag. -/
def MemoryRepository.withFile (r : MemoryRepository) (version path content : String) :
    MemoryRepository :=
  { r with
    versions := r.versions ++ [version]
    files := r.files ++ [((version, path), content)]
    defaultVersion :=
      if r.defaultVersion = "" ∧ version ≠ "latest" then version else r.defaultVersion }

/-- `MemoryRepository.DefaultVersion`. -/
def MemoryRepository.DefaultVersion (r : MemoryRepository) : String :=
  if r.defaultVersion = "" then "latest" else r.defaultVersion

/-- `MemoryRepository.ComponentsPath`. -/
def MemoryRepository.ComponentsPath (r : MemoryRepository) : String :=
  r.componentsPath

/-- The version-derivation step of `configmapRepository`: the version and the
error-message source default to the ConfigMap name and "from the Name", and
are replaced by the version label's value and "from the Label ..." when the
label map is non-nil and carries the label. -/
def configMapVersion (cm : ConfigMap) : String × String :=
  match cm.labels with
  | none => (cm.name, "from the Name")
  | some labels =>
    match lookupStr labels configMapVersionLabelName with
    | some ver => (ver, "from the Label " ++ configMapVersionLabelName)
    | none => (cm.name, "from the Name")

/-- `configmapRepository` of `controllers/phases.go`, after the external
`ctrlClient.Get` has produced the ConfigMap: derive the version, validate it
with `ParseSemantic`, then require the `metadata` and `components` data keys,
storing each file in a fresh MemoryRepository. -/
def configmapRepository (cm : ConfigMap) : Except String MemoryRepository :=
  let mr := MemoryRepository.withPaths {} "" "components.yaml"
  let vm := configMapVersion cm
  match versionutil.parseSemantic vm.1 with
  | Except.error _ =>
    Except.error ("ConfigMap " ++ cm.namespace_ ++ "/" ++ cm.name ++ " has invalid version:" ++ vm.1 ++ " (" ++ vm.2 ++ ")")
  | Except.ok _ =>
    match lookupStr cm.data "metadata" with
    | none => Except.error ("ConfigMap " ++ cm.namespace_ ++ "/" ++ cm.name ++ " has no metadata")
    | some metadata =>
      let mr := mr.withFile vm.1 metadataFile metadata
      match lookupStr cm.data "components" with
      | none => Except.error ("ConfigMap " ++ cm.namespace_ ++ "/" ++ cm.name ++ " has no components")
      | some components => Except.ok (mr.withFile vm.1 mr.ComponentsPath components)

/-- `clusterctlv1.ReleaseSeries`: a major/minor series and its contract. -/
structure ReleaseSeries where
  major : Nat
  minor : Nat
  contract : String
deriving Repr, DecidableEq

/-- `clusterctlv1.Metadata`: the decoded metadata.yaml document. -/
structure Metadata where
  releaseSeries : List ReleaseSeries
deriving Repr, DecidableEq

/-- `Metadata.GetReleaseSeriesForVersion`: the first series whose major and
minor equal the version's. -/
def getReleaseSeriesForVersion (m : Metadata) (v : versionutil.Version) : Option ReleaseSeries :=
  m.releaseSeries.find? (fun rs => v.major == rs.major && v.minor == rs.minor)

/-- `clusterv1.GroupVersion.Version` of the imported cluster-api api package:
the host environment's own contract version. -/
def clusterv1GroupVersionVersion : String := "v1beta1"

/-- Modelled from the spec: the format string `capiVersionIncompatibilityMessage`
is declared elsewhere in the repository and is not among the sources; per the
spec the ContractIncompatible message names the host environment's own contract
version, the series' declared contract, and the provider name. -/
def capiVersionIncompatibilityMessage (hostContract seriesContract providerName : String) : String :=
  "CAPI operator is only compatible with " ++ hostContract ++ " providers, detected " ++ seriesContract ++ " for provider " ++ providerName ++ "."

/-- `validateRepoCAPIVersion` of `controllers/phases.go`, after the external
`repo.GetFile` read and YAML decode have produced `latestMetadata`
(`s.options.Version` is `optionsVersion`): parse the current version, find its
release series, and accept only the contracts "v1alpha4" and "v1beta1".  The
Go assignment `s.contract = releaseSeries.Contract` is embedded as the `ok`
value. -/
def validateRepoCAPIVersion (latestMetadata : Metadata) (optionsVersion name : String) :
    Except String String :=
  match versionutil.parseSemantic optionsVersion with
  | Except.error _ =>
    Except.error ("failed to parse current version for the " ++ name ++ " provider")
  | Except.ok currentVersion =>
    match getReleaseSeriesForVersion latestMetadata currentVersion with
    | none =>
      Except.error ("invalid provider metadata: version " ++ optionsVersion ++ " for the provider " ++ name ++ " does not match any release series")
    | some releaseSeries =>
      if releaseSeries.contract ≠ "v1alpha4" ∧ releaseSeries.contract ≠ "v1beta1" then
        Except.error (capiVersionIncompatibilityMessage clusterv1GroupVersionVersion releaseSeries.contract name)
      else
        Except.ok releaseSeries.contract

/-- The closed set of provider kinds handled by `clusterctlProviderName`. -/
inductive ProviderKind where
  | bootstrap
  | controlPlane
  | infrastructure
  | core
deriving Repr, DecidableEq

/-- `client.ObjectKey`. -/
structure ObjectKey where
  name : String
  namespace_ : String
deriving Repr, DecidableEq

/-- `clusterctlProviderName` of `controllers/phases.go`: the kind-prefixed
delete-target / record identity. -/
def clusterctlProviderName (kind : ProviderKind) (providerName providerNamespace : String) :
    ObjectKey :=
  let pfx :=
    match kind with
    | ProviderKind.bootstrap => "bootstrap-"
    | ProviderKind.controlPlane => "control-plane-"
    | ProviderKind.infrastructure => "infrastructure-"
    | ProviderKind.core => ""
  { name := pfx ++ providerName, namespace_ := providerNamespace }

/-- Modelled from the collaborator interface: `util.ClusterctlProviderType`
maps the provider kind to the clusterctl provider type string. -/
def clusterctlProviderType (kind : ProviderKind) : String :=
  match kind with
  | ProviderKind.bootstrap => "BootstrapProvider"
  | ProviderKind.controlPlane => "ControlPlaneProvider"
  | ProviderKind.infrastructure => "InfrastructureProvider"
  | ProviderKind.core => "CoreProvider"

/-- `cluster.DeleteOptions` as passed to `ProviderComponents().Delete`. -/
structure DeleteOptions where
  provider : ClusterctlProvider
  includeNamespace : Bool
  includeCRDs : Bool
deriving Repr, DecidableEq

/-- The `delete` phase of `controllers/phases.go`, up to the Installer call:
fill in the clusterctl Provider identity fields, default its version to
`p.options.Version` when empty, and build the `cluster.DeleteOptions` handed
to the Installer (namespace and CRDs excluded).  `clusterctlProvider` is the
reconciler's current record state (possibly populated by an earlier Get). -/
def deleteOptions (kind : ProviderKind) (providerName providerNamespace : String)
    (clusterctlProvider : ClusterctlProvider) (optionsVersion : String) : DeleteOptions :=
  let p :=
    { clusterctlProvider with
      name := (controllers.clusterctlProviderName kind providerName providerNamespace).name
      namespace_ := providerNamespace
      type_ := clusterctlProviderType kind
      providerName := providerName }
  let p := if p.version = "" then { p with version := optionsVersion } else p
  { provider := p, includeNamespace := false, includeCRDs := false }

/-- The condition types of the operator api used by the phases. -/
inductive ConditionType where
  | preflightCheckCondition
  | providerInstalledCondition
deriving Repr, DecidableEq

/-- `clusterv1.ConditionSeverity` values used here. -/
inductive Severity where
  | warning
deriving Repr, DecidableEq

/-- Errors returned by the clusterctl installer: `wait.ErrWaitTimeout` is a
distinguished sentinel, compared by identity in `install`. -/
inductive InstallerError where
  | errWaitTimeout
  | other (msg : String)
deriving Repr, DecidableEq

/-- `PhaseError` of `controllers/phases.go`. -/
structure PhaseError where
  reason : String
  type_ : ConditionType
  severity : Severity
  err : InstallerError
deriving Repr, DecidableEq

/-- `wrapPhaseError` of `controllers/phases.go`: a nil cause collapses to no
error, anything else is wrapped with the reason, condition type and warning
severity. -/
def wrapPhaseError (err : Option InstallerError) (reason : String) (ctype : ConditionType) :
    Option PhaseError :=
  match err with
  | none => none
  | some e => some { reason := reason, type_ := ctype, severity := Severity.warning, err := e }

/-- The error-classification branch of the `install` phase: the reason is
"Install failed" unless the installer error is the `wait.ErrWaitTimeout`
sentinel, and the failure is attached to the provider-installed condition. -/
def installFailure (installErr : InstallerError) : Option PhaseError :=
  let reason := "Install failed"
  let reason :=
    if installErr = InstallerError.errWaitTimeout then
      "Timedout waiting for deployment to become ready"
    else reason
  wrapPhaseError (some installErr) reason ConditionType.providerInstalledCondition

end controllers

namespace webhook

/-- `metav1.LabelSelector` as inspected by `validateProviderSpec`: only the
`MatchLabels` map is examined (nil-ness of the map is what the check tests). -/
structure LabelSelector where
  matchLabels : Option (List (String × String))
deriving Repr, DecidableEq

/-- The provider spec's fetch configuration: an optional URL, an optional
label selector, and an optional ConfigMap reference. -/
structure FetchConfiguration where
  url : Option String
  selector : Option LabelSelector
deriving Repr, DecidableEq

/-- `operatorv1.ProviderSpec` as inspected by `validateProviderSpec`:
the version string and the optional fetch configuration. -/
structure ProviderSpec where
  version : String
  fetchConfig : Option FetchConfiguration
deriving Repr, DecidableEq

/-- A `field.Error` produced by `field.Invalid`. -/
structure FieldError where
  type_ : String
  field : String
  badValue : String
  detail : String
deriving Repr, DecidableEq

/-- `field.Invalid(path, value, detail)`. -/
def fieldInvalid (path value detail : String) : FieldError :=
  { type_ := "FieldValueInvalid", field := path, badValue := value, detail := detail }

/-- The Go condition
`spec.FetchConfig != nil && spec.FetchConfig.Selector != nil && spec.FetchConfig.Selector.MatchLabels != nil`. -/
def fetchConfigSelectorAndMatchLabels (spec : ProviderSpec) : Bool :=
  match spec.fetchConfig with
  | none => false
  | some fc =>
    match fc.selector with
    | none => false
    | some sel => sel.matchLabels.isSome

/-- `validateProviderSpec` of the webhook package: append an invalid-version
error when the version is nonempty and fails `ParseSemantic`, and an
invalid-field error on `spec.fetchConfig` when both a selector and its
match-labels map are set. -/
def validateProviderSpec (spec : ProviderSpec) : List FieldError :=
  let allErrs : List FieldError := []
  let allErrs :=
    if spec.version ≠ "" then
      match versionutil.parseSemantic spec.version with
      | Except.error err =>
        allErrs ++ [fieldInvalid "spec.version" spec.version ("invalid semantic version: " ++ err)]
      | Except.ok _ => allErrs
    else allErrs
  if fetchConfigSelectorAndMatchLabels spec then
    allErrs ++ [fieldInvalid "spec.fetchConfig" spec.version "can't use selector and matchlabels, only one option is allowed"]
  else allErrs

/-- `BootstrapProviderWebhook.ValidateCreate` of
`internal/webhook/bootstrapprovider_webhook.go`: returns `(nil, nil)` for
every context and object.  The Go `(admission.Warnings, error)` pair is
embedded as `List String × Option String`. -/
def BootstrapProviderWebhook.ValidateCreate {α β : Type} (ctx : α) (obj : β) :
    List String × Option String :=
  ([], none)

/-- `BootstrapProviderWebhook.ValidateUpdate`: returns `(nil, nil)` for every
context and pair of objects. -/
def BootstrapProviderWebhook.ValidateUpdate {α β : Type} (ctx : α) (oldObj newObj : β) :
    List String × Option String :=
  ([], none)

/-- `BootstrapProviderWebhook.ValidateDelete`: returns `(nil, nil)` for every
context and object. -/
def BootstrapProviderWebhook.ValidateDelete {α β : Type} (ctx : α) (obj : β) :
    List String × Option String :=
  ([], none)

end webhook

/-- C1: `updateRequiresPreDeletion` returns `false` when the record-store Get
reports NotFound; returns `false` when a record exists but its recorded
version field is empty; and otherwise, with both the recorded version and the
ComponentSet's resolved version parsing as semantic versions, returns `true`
if and only if the recorded version is strictly less than the new version
(equal and greater recorded versions return `false`). -/
theorem c1_updateRequiresPreDeletion_upgrade_predicate
    (g : Except controllers.GetError controllers.ClusterctlProvider) (cv : String) :
    (g = Except.error controllers.GetError.notFound →
      controllers.updateRequiresPreDeletion g cv = Except.ok false) ∧
    (∀ p, g = Except.ok p → p.version = "" →
      controllers.updateRequiresPreDeletion g cv = Except.ok false) ∧
    (∀ p cur next, g = Except.ok p → p.version ≠ "" →
      versionutil.parseSemantic cv = Except.ok next →
      versionutil.parseSemantic p.version = Except.ok cur →
      controllers.updateRequiresPreDeletion g cv = Except.ok (cur.lessThan next) ∧
      (cur.lessThan next = true ↔ cur.compareInternal next < 0) ∧
      (cur.compareInternal next = 0 ∨ 0 < cur.compareInternal next →
        controllers.updateRequiresPreDeletion g cv = Except.ok false)) := by
  refine ⟨?_, ?_, ?_⟩
  · rintro rfl; rfl
  · rintro p rfl hv
    simp [controllers.updateRequiresPreDeletion, hv]
  · rintro p cur next rfl hv hnext hcur
    have hmain :
        controllers.updateRequiresPreDeletion (Except.ok p) cv = Except.ok (cur.lessThan next) := by
      simp [controllers.updateRequiresPreDeletion, hv, hnext, hcur]
    refine ⟨hmain, by simp [versionutil.Version.lessThan], ?_⟩
    intro hc
    have hnlt : ¬ cur.compareInternal next < 0 := by
      rcases hc with h | h <;> omega
    rw [hmain]
    simp [versionutil.Version.lessThan, hnlt]

/-- Witness for C1 at the spec's own examples: recorded `v0.9.0` against new
`v1.0.0` requires pre-deletion; equal and greater recorded versions, an empty
recorded version, and a missing record do not. -/
theorem c1_witness :
    controllers.updateRequiresPreDeletion
      (Except.error controllers.GetError.notFound) "v1.0.0" = Except.ok false ∧
    controllers.updateRequiresPreDeletion
      (Except.ok { name := "bootstrap-kubeadm", namespace_ := "default",
                   type_ := "BootstrapProvider", providerName := "kubeadm", version := "" })
      "v1.0.0" = Except.ok false ∧
    controllers.updateRequiresPreDeletion
      (Except.ok { name := "bootstrap-kubeadm", namespace_ := "default",
                   type_ := "BootstrapProvider", providerName := "kubeadm", version := "v0.9.0" })
      "v1.0.0" = Except.ok true ∧
    controllers.updateRequiresPreDeletion
      (Except.ok { name := "bootstrap-kubeadm", namespace_ := "default",
                   type_ := "BootstrapProvider", providerName := "kubeadm", version := "v1.0.0" })
      "v1.0.0" = Except.ok false ∧
    controllers.updateRequiresPreDeletion
      (Except.ok { name := "bootstrap-kubeadm", namespace_ := "default",
                   type_ := "BootstrapProvider", providerName := "kubeadm", version := "v1.1.0" })
      "v1.0.0" = Except.ok false := by
  refine ⟨?_, ?_, ?_, ?_, ?_⟩
  · exact (c1_updateRequiresPreDeletion_upgrade_predicate _ "v1.0.0").1 rfl
  · exact (c1_updateRequiresPreDeletion_upgrade_predicate _ "v1.0.0").2.1 _ rfl rfl
  · have h := ((c1_updateRequiresPreDeletion_upgrade_predicate
      (Except.ok { name := "bootstrap-kubeadm", namespace_ := "default",
                   type_ := "BootstrapProvider", providerName := "kubeadm", version := "v0.9.0" })
      "v1.0.0").2.2
      { name := "bootstrap-kubeadm", namespace_ := "default",
        type_ := "BootstrapProvider", providerName := "kubeadm", version := "v0.9.0" }
      { components := [0, 9, 0], semver := true, preRelease := "", buildMetadata := "" }
      { components := [1, 0, 0], semver := true, preRelease := "", buildMetadata := "" }
      rfl (by decide) rfl rfl).1
    simpa using h
  · have h := ((c1_updateRequiresPreDeletion_upgrade_predicate
      (Except.ok { name := "bootstrap-kubeadm", namespace_ := "default",
                   type_ := "BootstrapProvider", providerName := "kubeadm", version := "v1.0.0" })
      "v1.0.0").2.2
      { name := "bootstrap-kubeadm", namespace_ := "default",
        type_ := "BootstrapProvider", providerName := "kubeadm", version := "v1.0.0" }
      { components := [1, 0, 0], semver := true, preRelease := "", buildMetadata := "" }
      { components := [1, 0, 0], semver := true, preRelease := "", buildMetadata := "" }
      rfl (by decide) rfl rfl).1
    simpa using h
  · have h := ((c1_updateRequiresPreDeletion_upgrade_predicate
      (Except.ok { name := "bootstrap-kubeadm", namespace_ := "default",
                   type_ := "BootstrapProvider", providerName := "kubeadm", version := "v1.1.0" })
      "v1.0.0").2.2
      { name := "bootstrap-kubeadm", namespace_ := "default",
        type_ := "BootstrapProvider", providerName := "kubeadm", version := "v1.1.0" }
      { components := [1, 1, 0], semver := true, preRelease := "", buildMetadata := "" }
      { components := [1, 0, 0], semver := true, preRelease := "", buildMetadata := "" }
      rfl (by decide) rfl rfl).1
    simpa using h

/-- C2: in the load phase, the target version placed into the components
options (used for all subsequent repository reads) is the Provider's pinned
spec version whenever that field is set, and the repository's default version
otherwise, for every provider configuration reaching the version computation. -/
theorem c2_load_target_version (providerNamespace : String) (specVersion : Option String)
    (repoDefaultVersion : String) :
    (∀ v, specVersion = some v →
      (controllers.loadOptions providerNamespace specVersion repoDefaultVersion).version = v) ∧
    (specVersion = none →
      (controllers.loadOptions providerNamespace specVersion repoDefaultVersion).version =
        repoDefaultVersion) ∧
    (controllers.loadOptions providerNamespace specVersion repoDefaultVersion).targetNamespace =
      providerNamespace := by
  refine ⟨?_, ?_, ?_⟩
  · rintro v rfl; rfl
  · rintro rfl; rfl
  · cases specVersion <;> rfl

/-- Witness for C2: a pinned version `v1.2.3` wins over the repository default
`v2.0.0`; with no pinned version the default is used. -/
theorem c2_witness :
    (controllers.loadOptions "default" (some "v1.2.3") "v2.0.0").version = "v1.2.3" ∧
    (controllers.loadOptions "default" none "v2.0.0").version = "v2.0.0" := by
  exact ⟨(c2_load_target_version "default" (some "v1.2.3") "v2.0.0").1 "v1.2.3" rfl,
    (c2_load_target_version "default" none "v2.0.0").2.1 rfl⟩

/-- C4: the delete phase builds the kind-prefixed delete-target identity,
defaults its version to the pass's target resolved version when the looked-up
record carries no version, and always issues the Installer delete with the
provider's namespace and CRDs excluded. -/
theorem c4_delete_identity_and_exclusions (kind : controllers.ProviderKind)
    (providerName providerNamespace : String)
    (cp : controllers.ClusterctlProvider) (optionsVersion : String) :
    (controllers.deleteOptions kind providerName providerNamespace cp optionsVersion).includeNamespace
      = false ∧
    (controllers.deleteOptions kind providerName providerNamespace cp optionsVersion).includeCRDs
      = false ∧
    (controllers.deleteOptions kind providerName providerNamespace cp optionsVersion).provider.name
      = (controllers.clusterctlProviderName kind providerName providerNamespace).name ∧
    (controllers.deleteOptions kind providerName providerNamespace cp optionsVersion).provider.namespace_
      = providerNamespace ∧
    (cp.version = "" →
      (controllers.deleteOptions kind providerName providerNamespace cp optionsVersion).provider.version
        = optionsVersion) ∧
    (cp.version ≠ "" →
      (controllers.deleteOptions kind providerName providerNamespace cp optionsVersion).provider.version
        = cp.version) := by
  by_cases h : cp.version = "" <;>
    simp [controllers.deleteOptions, h]

/-- Witness for C4: deleting a bootstrap provider with an empty-version record
targets `bootstrap-kubeadm`, takes the resolved version `v1.0.0`, and excludes
namespace and CRDs. -/
theorem c4_witness :
    (controllers.deleteOptions controllers.ProviderKind.bootstrap "kubeadm" "default"
      { name := "", namespace_ := "", type_ := "", providerName := "", version := "" }
      "v1.0.0").includeNamespace = false ∧
    (controllers.deleteOptions controllers.ProviderKind.bootstrap "kubeadm" "default"
      { name := "", namespace_ := "", type_ := "", providerName := "", version := "" }
      "v1.0.0").includeCRDs = false ∧
    (controllers.deleteOptions controllers.ProviderKind.bootstrap "kubeadm" "default"
      { name := "", namespace_ := "", type_ := "", providerName := "", version := "" }
      "v1.0.0").provider.name = "bootstrap-kubeadm" ∧
    (controllers.deleteOptions controllers.ProviderKind.bootstrap "kubeadm" "default"
      { name := "", namespace_ := "", type_ := "", providerName := "", version := "" }
      "v1.0.0").provider.version = "v1.0.0" := by
  have h := c4_delete_identity_and_exclusions controllers.ProviderKind.bootstrap "kubeadm" "default"
    { name := "", namespace_ := "", type_ := "", providerName := "", version := "" } "v1.0.0"
  exact ⟨h.1, h.2.1, h.2.2.1, h.2.2.2.2.1 rfl⟩

/-- C8: in the install phase, every installer error is classified into a
phase failure on the provider-installed condition whose reason is the
distinct timeout reason exactly when the error is the wait-timeout sentinel,
and the generic install-failure reason otherwise. -/
theorem c8_install_error_classification (e : controllers.InstallerError) :
    controllers.installFailure e =
      some { reason :=
               if e = controllers.InstallerError.errWaitTimeout then
                 "Timedout waiting for deployment to become ready"
               else "Install failed"
             type_ := controllers.ConditionType.providerInstalledCondition
             severity := controllers.Severity.warning
             err := e } ∧
    ((if e = controllers.InstallerError.errWaitTimeout then
        "Timedout waiting for deployment to become ready"
      else "Install failed") = "Timedout waiting for deployment to become ready" ↔
      e = controllers.InstallerError.errWaitTimeout) := by
  constructor
  · cases e <;> rfl
  · constructor
    · intro h
      by_contra hne
      rw [if_neg hne] at h
      exact absurd h (by decide)
    · intro h
      rw [if_pos h]

/-- C9: the BootstrapProviderWebhook admission validators ValidateCreate,
ValidateUpdate and ValidateDelete return no warnings and no error for every
context and object, so no spec validation (including the selector/match-labels
conflict check) is enforced through this webhook's validate path. -/
theorem c9_webhook_validators_unconditionally_accept :
    (∀ (α β : Type) (ctx : α) (obj : β),
      webhook.BootstrapProviderWebhook.ValidateCreate ctx obj = ([], none)) ∧
    (∀ (α β : Type) (ctx : α) (oldObj newObj : β),
      webhook.BootstrapProviderWebhook.ValidateUpdate ctx oldObj newObj = ([], none)) ∧
    (∀ (α β : Type) (ctx : α) (obj : β),
      webhook.BootstrapProviderWebhook.ValidateDelete ctx obj = ([], none)) ∧
    (∀ (spec : webhook.ProviderSpec),
      webhook.BootstrapProviderWebhook.ValidateCreate () spec = ([], none)) := by
  exact ⟨fun _ _ _ _ => rfl, fun _ _ _ _ _ => rfl, fun _ _ _ _ => rfl, fun _ => rfl⟩

/-- C3: when the matched release series declares a contract outside the fixed
allow-list ("v1alpha4", "v1beta1"), contract validation fails with the
incompatibility error naming the host environment's own contract version, the
series' declared contract and the provider name; when the contract is in the
allow-list, validation succeeds and the contract is stored in the reconciler
state (the returned value). -/
theorem c3_contract_allow_list (md : controllers.Metadata) (version name : String)
    (cv : versionutil.Version) (rs : controllers.ReleaseSeries)
    (hp : versionutil.parseSemantic version = Except.ok cv)
    (hs : controllers.getReleaseSeriesForVersion md cv = some rs) :
    (rs.contract ≠ "v1alpha4" ∧ rs.contract ≠ "v1beta1" →
      controllers.validateRepoCAPIVersion md version name =
        Except.error (controllers.capiVersionIncompatibilityMessage
          controllers.clusterv1GroupVersionVersion rs.contract name)) ∧
    ((rs.contract = "v1alpha4" ∨ rs.contract = "v1beta1") →
      controllers.validateRepoCAPIVersion md version name = Except.ok rs.contract) := by
  constructor
  · intro h
    simp only [controllers.validateRepoCAPIVersion, hp, hs]
    rw [if_pos h]
  · intro h
    have hn : ¬(rs.contract ≠ "v1alpha4" ∧ rs.contract ≠ "v1beta1") := by
      rcases h with h | h <;> simp [h]
    simp only [controllers.validateRepoCAPIVersion, hp, hs]
    rw [if_neg hn]

/-- Witness for C3: a series declaring contract `v1alpha3` at `v1.2.0` is
rejected with the message naming the host contract, the series contract and
the provider name; a series declaring `v1beta1` is accepted and its contract
returned. -/
theorem c3_witness :
    controllers.validateRepoCAPIVersion
      { releaseSeries := [{ major := 1, minor := 2, contract := "v1alpha3" }] } "v1.2.0" "aws" =
      Except.error (controllers.capiVersionIncompatibilityMessage "v1beta1" "v1alpha3" "aws") ∧
    controllers.validateRepoCAPIVersion
      { releaseSeries := [{ major := 1, minor := 2, contract := "v1beta1" }] } "v1.2.0" "aws" =
      Except.ok "v1beta1" := by
  constructor
  · exact (c3_contract_allow_list
      { releaseSeries := [{ major := 1, minor := 2, contract := "v1alpha3" }] } "v1.2.0" "aws"
      { components := [1, 2, 0], semver := true, preRelease := "", buildMetadata := "" }
      { major := 1, minor := 2, contract := "v1alpha3" }
      rfl rfl).1 (by decide)
  · exact (c3_contract_allow_list
      { releaseSeries := [{ major := 1, minor := 2, contract := "v1beta1" }] } "v1.2.0" "aws"
      { components := [1, 2, 0], semver := true, preRelease := "", buildMetadata := "" }
      { major := 1, minor := 2, contract := "v1beta1" }
      rfl rfl).2 (Or.inr rfl)

/-- C7: for every provider spec whose fetch configuration sets both a label
selector and a match-labels map, `validateProviderSpec` returns a non-empty
error list containing an invalid-field error for the `spec.fetchConfig` path,
regardless of the values of all other spec fields. -/
theorem c7_selector_matchlabels_conflict (spec : webhook.ProviderSpec)
    (fc : webhook.FetchConfiguration) (sel : webhook.LabelSelector)
    (ml : List (String × String))
    (h1 : spec.fetchConfig = some fc) (h2 : fc.selector = some sel)
    (h3 : sel.matchLabels = some ml) :
    webhook.validateProviderSpec spec ≠ [] ∧
    webhook.fieldInvalid "spec.fetchConfig" spec.version
        "can't use selector and matchlabels, only one option is allowed" ∈
      webhook.validateProviderSpec spec := by
  have hb : webhook.fetchConfigSelectorAndMatchLabels spec = true := by
    simp [webhook.fetchConfigSelectorAndMatchLabels, h1, h2, h3]
  constructor
  · simp [webhook.validateProviderSpec, hb]
  · simp [webhook.validateProviderSpec, hb]

/-- Witness for C7: a spec with version `v1.0.0` and a fetch configuration
carrying both a selector and a match-labels map fails validation with the
invalid-field error on `spec.fetchConfig`. -/
theorem c7_witness :
    webhook.validateProviderSpec
      { version := "v1.0.0",
        fetchConfig := some { url := none, selector := some { matchLabels := some [("k", "v")] } } } ≠ [] ∧
    webhook.fieldInvalid "spec.fetchConfig" "v1.0.0"
        "can't use selector and matchlabels, only one option is allowed" ∈
      webhook.validateProviderSpec
        { version := "v1.0.0",
          fetchConfig := some { url := none, selector := some { matchLabels := some [("k", "v")] } } } := by
  exact c7_selector_matchlabels_conflict
    { version := "v1.0.0",
      fetchConfig := some { url := none, selector := some { matchLabels := some [("k", "v")] } } }
    { url := none, selector := some { matchLabels := some [("k", "v")] } }
    { matchLabels := some [("k", "v")] } [("k", "v")] rfl rfl rfl

/-- C10: `validateProviderSpec` raises an invalid-version error (an error on
the `spec.version` path) if and only if the spec's version field is non-empty
and fails semantic-version parsing; the empty version string is always
accepted by the version check, even though the empty string is not a valid
semantic version. -/
theorem c10_version_check_iff (spec : webhook.ProviderSpec) :
    ((∃ e ∈ webhook.validateProviderSpec spec, e.field = "spec.version") ↔
      (spec.version ≠ "" ∧ ∃ msg, versionutil.parseSemantic spec.version = Except.error msg)) ∧
    (∃ msg, versionutil.parseSemantic "" = Except.error msg) := by
  constructor
  · by_cases hv : spec.version = ""
    · by_cases hf : webhook.fetchConfigSelectorAndMatchLabels spec = true
      · simp [webhook.validateProviderSpec, hv, hf, webhook.fieldInvalid]
      · simp [webhook.validateProviderSpec, hv, hf]
    · cases hps : versionutil.parseSemantic spec.version with
      | error msg =>
        by_cases hf : webhook.fetchConfigSelectorAndMatchLabels spec = true
        · simp [webhook.validateProviderSpec, hv, hf, hps, webhook.fieldInvalid]
        · simp [webhook.validateProviderSpec, hv, hf, hps, webhook.fieldInvalid]
      | ok ver =>
        by_cases hf : webhook.fetchConfigSelectorAndMatchLabels spec = true
        · simp [webhook.validateProviderSpec, hv, hf, hps, webhook.fieldInvalid]
        · simp [webhook.validateProviderSpec, hv, hf, hps]
  · exact ⟨"could not parse \"\" as version", rfl⟩

/-- C5 counterexample: a ConfigMap named `foo` (no version label) whose data
lacks the `metadata` key fails construction with the invalid-version error,
not with an error naming the missing `metadata` key — the version check runs
first, so the claim's unconditional statement is false. -/
theorem c5_counterexample :
    controllers.configmapRepository
      { namespace_ := "default", name := "foo", labels := none, data := [] } =
      Except.error "ConfigMap default/foo has invalid version:foo (from the Name)" ∧
    ("ConfigMap default/foo has invalid version:foo (from the Name)" : String) ≠
      "ConfigMap default/foo has no metadata" := by
  exact ⟨rfl, by decide⟩

/-- C5 (amended): for every configuration object whose derived version parses
as a semantic version, construction fails naming the missing `metadata` key
when the data lacks it (regardless of whether `components` is present), and
fails naming `components` when `metadata` is present but `components` is
absent. -/
theorem c5_missing_keys (cm : controllers.ConfigMap) (pv : versionutil.Version)
    (hv : versionutil.parseSemantic (controllers.configMapVersion cm).1 = Except.ok pv) :
    (controllers.lookupStr cm.data "metadata" = none →
      controllers.configmapRepository cm =
        Except.error ("ConfigMap " ++ cm.namespace_ ++ "/" ++ cm.name ++ " has no metadata")) ∧
    (∀ m, controllers.lookupStr cm.data "metadata" = some m →
      controllers.lookupStr cm.data "components" = none →
      controllers.configmapRepository cm =
        Except.error ("ConfigMap " ++ cm.namespace_ ++ "/" ++ cm.name ++ " has no components")) := by
  constructor
  · intro hm
    simp [controllers.configmapRepository, hv, hm]
  · intro m hm hc
    simp [controllers.configmapRepository, hv, hm, hc]

/-- Witness for C5 (amended): a ConfigMap named `v2.0.0` with empty data
fails naming `metadata`; with only a `metadata` entry it fails naming
`components`. -/
theorem c5_witness :
    controllers.configmapRepository
      { namespace_ := "default", name := "v2.0.0", labels := none, data := [] } =
      Except.error "ConfigMap default/v2.0.0 has no metadata" ∧
    controllers.configmapRepository
      { namespace_ := "default", name := "v2.0.0", labels := none,
        data := [("metadata", "m")] } =
      Except.error "ConfigMap default/v2.0.0 has no components" := by
  constructor
  · exact (c5_missing_keys
      { namespace_ := "default", name := "v2.0.0", labels := none, data := [] }
      { components := [2, 0, 0], semver := true, preRelease := "", buildMetadata := "" }
      rfl).1 rfl
  · exact (c5_missing_keys
      { namespace_ := "default", name := "v2.0.0", labels := none, data := [("metadata", "m")] }
      { components := [2, 0, 0], semver := true, preRelease := "", buildMetadata := "" }
      rfl).2 "m" rfl rfl

/-- C6: InMemoryRepository construction derives the version from the
ConfigMap's name when no version label is present (an invalid version then
being reported as coming "from the Name"), and from the version label's value
when the label is present (reported "from the Label ..."); the constructed
repository's DefaultVersion() returns the derived version. -/
theorem c6_version_derivation (cm : controllers.ConfigMap) :
    ((cm.labels = none ∨ ∃ ls, cm.labels = some ls ∧
        controllers.lookupStr ls controllers.configMapVersionLabelName = none) →
      controllers.configMapVersion cm = (cm.name, "from the Name")) ∧
    (∀ ls v, cm.labels = some ls →
      controllers.lookupStr ls controllers.configMapVersionLabelName = some v →
      controllers.configMapVersion cm =
        (v, "from the Label " ++ controllers.configMapVersionLabelName)) ∧
    (∀ e, versionutil.parseSemantic (controllers.configMapVersion cm).1 = Except.error e →
      controllers.configmapRepository cm = Except.error
        ("ConfigMap " ++ cm.namespace_ ++ "/" ++ cm.name ++ " has invalid version:" ++
          (controllers.configMapVersion cm).1 ++ " (" ++ (controllers.configMapVersion cm).2 ++ ")")) ∧
    (∀ repo, controllers.configmapRepository cm = Except.ok repo →
      repo.DefaultVersion = (controllers.configMapVersion cm).1) := by
  refine ⟨?_, ?_, ?_, ?_⟩
  · rintro (hnone | ⟨ls, hls, hlk⟩)
    · simp [controllers.configMapVersion, hnone]
    · simp [controllers.configMapVersion, hls, hlk]
  · intro ls v hls hlk
    simp [controllers.configMapVersion, hls, hlk]
  · intro e he
    simp [controllers.configmapRepository, he]
  · intro repo h
    cases hps : versionutil.parseSemantic (controllers.configMapVersion cm).1 with
    | error e =>
      simp [controllers.configmapRepository, hps] at h
    | ok pv =>
      have hlat : (controllers.configMapVersion cm).1 ≠ "latest" := by
        intro hl
        rw [hl] at hps
        exact Except.noConfusion hps
      have hemp : (controllers.configMapVersion cm).1 ≠ "" := by
        intro hl
        rw [hl] at hps
        exact Except.noConfusion hps
      simp only [controllers.configmapRepository, hps] at h
      cases hm : controllers.lookupStr cm.data "metadata" with
      | none => rw [hm] at h; simp at h
      | some m =>
        rw [hm] at h
        cases hc : controllers.lookupStr cm.data "components" with
        | none => rw [hc] at h; simp at h
        | some comps =>
          rw [hc] at h
          injection h with h'
          subst h'
          simp [controllers.MemoryRepository.DefaultVersion, controllers.MemoryRepository.withFile,
            controllers.MemoryRepository.withPaths, hlat, hemp]

/-- Witness for C6 at the spec's examples: a ConfigMap named `v1.2.3` without
a label derives `("v1.2.3", "from the Name")` and its repository's default
version is `v1.2.3`; a label `cluster.x-k8s.io/version=v1.3.0` derives the
label value; an unparseable name is reported "from the Name". -/
theorem c6_witness :
    controllers.configMapVersion
      { namespace_ := "default", name := "v1.2.3", labels := none,
        data := [("metadata", "m"), ("components", "c")] } = ("v1.2.3", "from the Name") ∧
    controllers.configMapVersion
      { namespace_ := "default", name := "cm", labels := some [("cluster.x-k8s.io/version", "v1.3.0")],
        data := [] } = ("v1.3.0", "from the Label " ++ controllers.configMapVersionLabelName) ∧
    controllers.configmapRepository
      { namespace_ := "default", name := "not-semver", labels := none, data := [] } =
      Except.error "ConfigMap default/not-semver has invalid version:not-semver (from the Name)" ∧
    controllers.MemoryRepository.DefaultVersion
      { rootPath := "", componentsPath := "components.yaml", defaultVersion := "v1.2.3",
        versions := ["v1.2.3", "v1.2.3"],
        files := [(("v1.2.3", "metadata.yaml"), "m"), (("v1.2.3", "components.yaml"), "c")] } =
      "v1.2.3" := by
  refine ⟨?_, ?_, ?_, ?_⟩
  · exact (c6_version_derivation
      { namespace_ := "default", name := "v1.2.3", labels := none,
        data := [("metadata", "m"), ("components", "c")] }).1 (Or.inl rfl)
  · exact (c6_version_derivation
      { namespace_ := "default", name := "cm",
        labels := some [("cluster.x-k8s.io/version", "v1.3.0")], data := [] }).2.1
      [("cluster.x-k8s.io/version", "v1.3.0")] "v1.3.0" rfl rfl
  · exact (c6_version_derivation
      { namespace_ := "default", name := "not-semver", labels := none, data := [] }).2.2.1
      "could not parse \"not-semver\" as version" rfl
  · exact (c6_version_derivation
      { namespace_ := "default", name := "v1.2.3", labels := none,
        data := [("metadata", "m"), ("components", "c")] }).2.2.2
      { rootPath := "", componentsPath := "components.yaml", defaultVersion := "v1.2.3",
        versions := ["v1.2.3", "v1.2.3"],
        files := [(("v1.2.3", "metadata.yaml"), "m"), (("v1.2.3", "components.yaml"), "c")] }
      rfl
